import Mathlib

/-! # srcpd_rust: shallow embedding of the core and verification of the spec claims

This file embeds, in Lean, the parts of the srcpd_rust sources that the
claims C1..C10 refer to, and settles each claim against that embedding.
Rust machine integers are modelled as `Nat` (with explicit bounds, or with
`% 2^w` where wrap-around matters), fallible operations return `Option` or
`Except`, and a Rust panic (out-of-bounds index, failed `unwrap`) is
modelled as `none`.  Channel sends and SPI output are modelled as event
lists produced alongside the new state.
-/

namespace SrcpdRust

/-! ## Integer parsing helpers

Rust `str::parse::<uN>()` accepts decimal digits and fails on overflow
and on any other character.  The optional leading `+` sign accepted by
Rust is not modelled; every input of interest here is a plain digit
string.  (A hand-rolled digit fold is used instead of `String.toNat?`
so that concrete inputs evaluate by kernel reduction.) -/

/-- Fold a run of decimal digits into a number; `none` on any
non-digit. -/
def digits_to_nat_aux : List Char → Nat → Option Nat
  | [], acc => some acc
  | c :: cs, acc =>
    if 48 ≤ c.toNat ∧ c.toNat ≤ 57 then
      digits_to_nat_aux cs (acc * 10 + (c.toNat - 48))
    else none

/-- Parse a nonempty all-digit string. -/
def str_to_nat? (s : String) : Option Nat :=
  match s.data with
  | [] => none
  | cs => digits_to_nat_aux cs 0

/-- Parse an optionally `-`-signed decimal string. -/
def str_to_int? (s : String) : Option Int :=
  match s.data with
  | [] => none
  | c :: cs =>
    if c = '-' then
      match cs with
      | [] => none
      | _ => (digits_to_nat_aux cs 0).map (fun n => -(n : Int))
    else
      (digits_to_nat_aux (c :: cs) 0).map (fun n => (n : Int))

/-- Rust `str::parse::<u32>()`. -/
def parse_u32 (s : String) : Option Nat :=
  match str_to_nat? s with
  | some n => if n < 2 ^ 32 then some n else none
  | none => none

/-- Rust `str::parse::<u8>()`. -/
def parse_u8 (s : String) : Option Nat :=
  match str_to_nat? s with
  | some n => if n < 2 ^ 8 then some n else none
  | none => none

/-- Rust `str::parse::<usize>()` (64-bit target). -/
def parse_usize (s : String) : Option Nat :=
  match str_to_nat? s with
  | some n => if n < 2 ^ 64 then some n else none
  | none => none

/-- Rust `str::parse::<i32>()`. -/
def parse_i32 (s : String) : Option Int :=
  match str_to_int? s with
  | some n => if -(2 ^ 31) ≤ n ∧ n < 2 ^ 31 then some n else none
  | none => none

/-! ## SRCP message records (`srcp_server_types.rs`) -/

/-- `SRCPMessageType` from `srcp_server_types.rs`. -/
inductive SRCPMessageType where
  | GET
  | SET
  | VERIFY
  | INIT
  | TERM
deriving DecidableEq, Repr

/-- `SRCPMessageType::to_string`. -/
def SRCPMessageType.to_string : SRCPMessageType → String
  | .GET => "GET"
  | .SET => "SET"
  | .VERIFY => "VERIFY"
  | .INIT => "INIT"
  | .TERM => "TERM"

/-- The `match cmd[0]` arms of `SRCPMessage::from` (`srcp_server_types.rs`,
the inline match is factored out as a helper). -/
def SRCPMessageType.fromStr : String → Option SRCPMessageType
  | "GET" => some .GET
  | "SET" => some .SET
  | "VERIFY" => some .VERIFY
  | "INIT" => some .INIT
  | "TERM" => some .TERM
  | _ => none

/-- `SRCPMessageID` from `srcp_server_types.rs`. -/
inductive SRCPMessageID where
  | info (info_code : String)
  | command (msg_type : SRCPMessageType)
  | ok (ok_code : String)
  | err (err_code : String) (err_text : String)
deriving DecidableEq, Repr

/-- `SRCPMessageID::to_string`. -/
def SRCPMessageID.to_string : SRCPMessageID → String
  | .info c => c ++ " INFO"
  | .command t => t.to_string
  | .ok c => c ++ " OK"
  | .err c t => c ++ " ERROR " ++ t

/-- `SRCPMessageID::str_kurz`: which message kinds print the short form. -/
def SRCPMessageID.str_kurz : SRCPMessageID → Bool
  | .info _ => false
  | .command _ => false
  | .ok _ => false
  | .err _ _ => true

/-- `SRCPMessageDevice` from `srcp_server_types.rs`. -/
inductive SRCPMessageDevice where
  | GA
  | GL
  | FB
  | SM
  | Power
deriving DecidableEq, Repr

/-- `SRCPMessageDevice::to_string`. -/
def SRCPMessageDevice.to_string : SRCPMessageDevice → String
  | .GA => "GA"
  | .GL => "GL"
  | .FB => "FB"
  | .SM => "SM"
  | .Power => "POWER"

/-- The `match cmd[2]` arms of `SRCPMessage::from` (factored out). -/
def SRCPMessageDevice.fromStr : String → Option SRCPMessageDevice
  | "GA" => some .GA
  | "GL" => some .GL
  | "FB" => some .FB
  | "SM" => some .SM
  | "POWER" => some .Power
  | _ => none

/-- `SRCPMessage` from `srcp_server_types.rs`. -/
structure SRCPMessage where
  session_id : Option Nat
  bus : Nat
  message_id : SRCPMessageID
  device : SRCPMessageDevice
  parameter : List String
deriving DecidableEq, Repr

/-- `SRCPMessage::from` (`srcp_server_types.rs` lines 163..192): parse a
command line, already split at spaces, into a command record.  The Rust
struct literal evaluates `message_id`, then `bus`, then `device`, each
with an early `return Err`; the nested matches below mirror that order.
(`from` is a Lean keyword, hence the name `fromCmd`.) -/
def SRCPMessage.fromCmd (session_id : Nat) (cmd : List String) :
    Except (String × String) SRCPMessage :=
  match cmd with
  | c0 :: c1 :: c2 :: rest =>
    match SRCPMessageType.fromStr c0 with
    | none => .error ("410", "unknown command")
    | some t =>
      match parse_usize c1 with
      | none => .error ("412", "wrong value")
      | some bus =>
        match SRCPMessageDevice.fromStr c2 with
        | none => .error ("421", "unsupported device")
        | some dev =>
          .ok { session_id := some session_id
                bus := bus
                message_id := .command t
                device := dev
                parameter := rest }
  | _ => .error ("419", "list too short")

/-- `SRCPMessage::to_string` (`srcp_server_types.rs` lines 203..227).
The Rust code builds `p_str` by appending `p` and then `" "` for every
parameter, and formats `"\x7b} \x7b} \x7b} \x7b}"` with message id, bus, device and
`p_str`. -/
def SRCPMessage.to_string (m : SRCPMessage) : String :=
  if m.message_id.str_kurz then
    m.message_id.to_string
  else
    m.message_id.to_string ++ " " ++ Nat.repr m.bus ++ " " ++ m.device.to_string ++ " "
      ++ String.join (m.parameter.map (fun p => p ++ " "))

/-- Modelled from the spec's words (spec §8 round-trips): "the canonical
form (upper-case, single-space separated)" of a tokenised command line --
the tokens joined by exactly one space, with no leading or trailing
whitespace. -/
def canonical_line : List String → String
  | [] => ""
  | [x] => x
  | x :: y :: xs => x ++ " " ++ canonical_line (y :: xs)

/-- `SRCPMessage::new_ok` (`srcp_server_types.rs`). -/
def SRCPMessage.new_ok (m : SRCPMessage) (ok_code : String) : SRCPMessage :=
  { session_id := m.session_id
    bus := m.bus
    message_id := .ok ok_code
    device := m.device
    parameter := [] }

/-- `SRCPMessage::new_err` (`srcp_server_types.rs`). -/
def SRCPMessage.new_err (m : SRCPMessage) (err_code err_text : String) : SRCPMessage :=
  { session_id := m.session_id
    bus := m.bus
    message_id := .err err_code err_text
    device := m.device
    parameter := [] }

/-- `SRCPMessage::get_adr` (`srcp_server_types.rs` lines 196..201): the
first parameter parsed as `u32`, `None` when absent or unparsable. -/
def SRCPMessage.get_adr (m : SRCPMessage) : Option Nat :=
  match m.parameter with
  | p :: _ => parse_u32 p
  | [] => none

/-! ## Shared protocol types (`srcp_protocol_ddl.rs`) -/

/-- `DdlProtokolle`. -/
inductive DdlProtokolle where
  | Maerklin
  | Dcc
  | Mfx
deriving DecidableEq, Repr

/-- `DdlProtokolle::from_str`. -/
def DdlProtokolle.fromStr : String → Option DdlProtokolle
  | "M" => some .Maerklin
  | "N" => some .Dcc
  | "X" => some .Mfx
  | _ => none

/-- `GLDriveMode`. -/
inductive GLDriveMode where
  | Vorwaerts
  | Rueckwaerts
  | Nothalt
deriving DecidableEq, Repr

/-- `GLDriveMode::from_str` ("0" is reverse, "1" forward, "2" emergency stop). -/
def GLDriveMode.fromStr : String → Option GLDriveMode
  | "0" => some .Rueckwaerts
  | "1" => some .Vorwaerts
  | "2" => some .Nothalt
  | _ => none

/-- `GLDriveMode::to_string`. -/
def GLDriveMode.to_string : GLDriveMode → String
  | .Rueckwaerts => "0"
  | .Vorwaerts => "1"
  | .Nothalt => "2"

/-! ## DDL scheduler command queue (`srcp_server_ddl.rs`, `DDL::execute`)

The scheduler executes Power and SM commands and every non-SET command
immediately; validated SET commands for the remaining devices (GL, GA)
are pushed into `queue`, and each loop iteration executes at most the
front element (`queue.remove(0)`). -/

/-- The commands that `DDL::execute` (lines 320..345) puts into the queue:
a validated `SET` for a device other than `Power` and `SM`. -/
def queued_cmd (m : SRCPMessage) : Prop :=
  m.message_id = .command .SET ∧ m.device ≠ .Power ∧ m.device ≠ .SM

/-- The removal loop of `DDL::execute` (lines 330..342): before a new GL
SET is pushed, the first queued GL message with the same `get_adr` is
removed (the loop breaks after the first hit). -/
def remove_old_gl (adr : Option Nat) (queue : List SRCPMessage) : List SRCPMessage :=
  queue.eraseP (fun q => q.device == SRCPMessageDevice.GL && q.get_adr == adr)

/-- Enqueue step of `DDL::execute`: a GL SET first removes any older
queued GL SET for the same address, then the message is pushed at the
end of the queue. -/
def enqueue (queue : List SRCPMessage) (m : SRCPMessage) : List SRCPMessage :=
  (if m.device = SRCPMessageDevice.GL then remove_old_gl m.get_adr queue else queue) ++ [m]

/-- Reachable queue states of one DDL bus scheduler: the queue starts
empty; a validated GL/GA SET is enqueued (`enqueue`); executing a queued
command removes the front element (`queue.remove(0)`). -/
inductive QueueReachable : List SRCPMessage → Prop where
  | empty : QueueReachable []
  | enq (queue : List SRCPMessage) (m : SRCPMessage) (hq : QueueReachable queue)
      (hm : queued_cmd m) : QueueReachable (enqueue queue m)
  | deq (queue : List SRCPMessage) (m : SRCPMessage)
      (hq : QueueReachable (m :: queue)) : QueueReachable queue

/-- Number of queued GL messages for one address. -/
def count_gl_adr (queue : List SRCPMessage) (a : Option Nat) : Nat :=
  queue.countP (fun q => q.device == SRCPMessageDevice.GL && q.get_adr == a)

/-! ## GL device handler (`srcp_devices_ddl_gl.rs`) -/

/-- `GLInit`: the stored record of one initialised locomotive. -/
structure GLInit where
  direction : GLDriveMode
  speed : Nat
  /-- Function bitmap (`u64` in the source). -/
  fnkt : Nat
  protokoll : DdlProtokolle
  protokoll_version : String
  protokoll_speedsteps : Nat
  protokoll_number_functions : Nat
  protokoll_uid : Option Nat
  param : List String
deriving DecidableEq, Repr

/-- The `HashMap<u32, GLInit>` field `all_gl`, modelled as an association
list. -/
def GLMap := List (Nat × GLInit)

/-- `all_gl.get(&adr)`. -/
def glLookup (all_gl : GLMap) (adr : Nat) : Option GLInit :=
  (List.find? (fun p => p.1 == adr) all_gl).map (fun p => p.2)

/-- `all_gl.get_mut(&adr)` followed by a field update: replace the record
stored under `adr`. -/
def glUpdate (all_gl : GLMap) (adr : Nat) (g : GLInit) : GLMap :=
  List.map (fun p => if p.1 = adr then (adr, g) else p) all_gl

/-- Observable side effects of the device handlers: an `SRCPMessage` sent
on the info channel (`self.tx.send`), or a telegram shipped to the SPI
bus for the given address (`send_gl_tel` / `send_ga`; the byte rendering
of the telegram is the codecs' business and is embedded separately). -/
inductive Event where
  | msg (m : SRCPMessage)
  | telegram (adr : Nat)
deriving DecidableEq, Repr

/-- Capability record of one protocol/version used by `validate_cmd`
(`uid()` and `get_gl_max_adr()` of the `DdlProtokoll` trait object). -/
structure ProtInfo where
  uid : Bool
  gl_max_adr : Nat
  ga_max_adr : Nat
deriving DecidableEq, Repr

/-- The `all_protokolle` registry (protocol, then version string). -/
def ProtRegistry := List (DdlProtokolle × List (String × ProtInfo))

/-- Registry lookup (`self.all_protokolle.get(&protokoll)`). -/
def registryLookup (reg : ProtRegistry) (p : DdlProtokolle) :
    Option (List (String × ProtInfo)) :=
  List.lookup p reg

/-- `DdlGL::validate_get_set` (`srcp_devices_ddl_gl.rs` lines 127..154).
`anz_parameter` is at least 1 at both call sites, so the index
`parameter[0]` is in bounds whenever the length guard passed. -/
def DdlGL.validate_get_set (all_gl : GLMap) (m : SRCPMessage) (anz_parameter : Nat) :
    Bool × List SRCPMessage :=
  if anz_parameter ≤ m.parameter.length then
    match parse_u32 (m.parameter.getD 0 "") with
    | some adr =>
      if (glLookup all_gl adr).isSome then
        (true, [])
      else
        (false, [m.new_err "416" "no data"])
    | none => (false, [m.new_err "412" "wrong value"])
  else
    (false, [m.new_err "419" "list too short"])

/-- The INIT arm of `DdlGL::validate_cmd` (lines 390..472).  The loop
over parameters 3.. breaks at the first non-numeric entry (index 6, the
MFX locomotive name, is exempt), so at most one error is sent here. -/
def DdlGL.validate_init (reg : ProtRegistry) (m : SRCPMessage) : Bool × List SRCPMessage :=
  if 5 ≤ m.parameter.length then
    match DdlProtokolle.fromStr (m.parameter.getD 1 "") with
    | none => (false, [m.new_err "420" "unsupported device protocol"])
    | some prot =>
      match registryLookup reg prot with
      | none => (false, [m.new_err "420" "unsupported device protocol"])
      | some versions =>
        match List.lookup (m.parameter.getD 2 "") versions with
        | none => (false, [m.new_err "420" "unsupported device protocol"])
        | some prot_impl =>
          if prot_impl.uid ∧ m.parameter.length < 6 then
            (false, [m.new_err "419" "list too short"])
          else
            match parse_u32 (m.parameter.getD 0 "") with
            | none => (false, [m.new_err "412" "wrong value"])
            | some adr =>
              if 0 < adr ∧ adr ≤ prot_impl.gl_max_adr then
                match List.find?
                    (fun i => i ≠ 6 && (parse_u32 (m.parameter.getD i "")).isNone)
                    (List.range' 3 (m.parameter.length - 3)) with
                | some _ => (false, [m.new_err "412" "wrong value"])
                | none => (true, [])
              else
                (false, [m.new_err "412" "wrong value"])
  else
    (false, [m.new_err "419" "list too short"])

/-- The SET arm of `DdlGL::validate_cmd` (lines 500..536).  After
`validate_get_set` and the drivemode / `v` / `v_max` checks, the loop
over the function parameters sends one `412` error per value outside
0/1 and does not break; `200 OK` is sent only when everything passed
(for SET the OK is sent already at validation time because the command
is queued). -/
def DdlGL.validate_set (all_gl : GLMap) (m : SRCPMessage) : Bool × List SRCPMessage :=
  let gs := DdlGL.validate_get_set all_gl m 4
  if gs.1 then
    if (m.parameter.getD 1 "" = "0" ∨ m.parameter.getD 1 "" = "1"
          ∨ m.parameter.getD 1 "" = "2")
        ∧ (parse_u8 (m.parameter.getD 2 "")).isSome
        ∧ (parse_u8 (m.parameter.getD 3 "")).isSome
        ∧ 0 < (parse_u8 (m.parameter.getD 3 "")).getD 0 then
      let loop := List.foldl
        (fun (acc : Bool × List SRCPMessage) p =>
          if p ≠ "0" ∧ p ≠ "1" then
            (false, acc.2 ++ [m.new_err "412" "wrong value"])
          else acc)
        (true, []) (m.parameter.drop 4)
      if loop.1 then
        (true, gs.2 ++ loop.2 ++ [m.new_ok "200"])
      else
        (false, gs.2 ++ loop.2)
    else
      (false, gs.2 ++ [m.new_err "412" "wrong value"])
  else
    gs

/-- `DdlGL::validate_cmd` (`srcp_devices_ddl_gl.rs` lines 385..540).
Returns `none` for a panic.  The TERM arm indexes `parameter[0]` without
a length guard, so a TERM with an empty parameter list panics.  This
source snapshot's match covers only INIT/TERM/GET/SET; a VERIFY command
has no defined behaviour here and is modelled as `none` as well. -/
def DdlGL.validate_cmd (reg : ProtRegistry) (all_gl : GLMap) (m : SRCPMessage) :
    Option (Bool × List SRCPMessage) :=
  match m.message_id with
  | .command t =>
    match t with
    | .INIT => some (DdlGL.validate_init reg m)
    | .TERM =>
      match m.parameter.get? 0 with
      | none => none
      | some p0 =>
        match parse_u32 p0 with
        | some adr =>
          if (glLookup all_gl adr).isSome then
            some (true, [m.new_ok "200"])
          else
            some (false, [m.new_err "412" "wrong value"])
        | none => some (false, [m.new_err "412" "wrong value"])
    | .GET => some (DdlGL.validate_get_set all_gl m 1)
    | .SET => some (DdlGL.validate_set all_gl m)
    | .VERIFY => none
  | _ => some (false, [])

/-- Parameter list of `DdlGL::send_info_msg` (lines 160..184):
`INFO <bus> GL <addr> <drivemode> <V> <V_max> <f0> .. <fn>` where the
third value is the stored (already rescaled) speed and the fourth the
configured speed-step count. -/
def DdlGL.info_params (adr : Nat) (gl : GLInit) : List String :=
  [Nat.repr adr, gl.direction.to_string, Nat.repr gl.speed, Nat.repr gl.protokoll_speedsteps]
    ++ (List.range gl.protokoll_number_functions).map
        (fun i => if gl.fnkt &&& (1 <<< i) = 0 then "0" else "1")

/-- The info message built by `DdlGL::send_info_msg`. -/
def DdlGL.info_msg (bus : Nat) (session_id : Option Nat) (adr : Nat) (gl : GLInit) :
    SRCPMessage :=
  { session_id := session_id
    bus := bus
    message_id := .info "100"
    device := .GL
    parameter := DdlGL.info_params adr gl }

/-- The speed rescaling of `DdlGL::send_gl` (line 202):
`(gl.protokoll_speedsteps * v) / v_max`.  Division by zero is a Rust
panic; every call site has validated `v_max > 0`. -/
def DdlGL.compute_speed (speedsteps v v_max : Nat) : Nat :=
  speedsteps * v / v_max

/-- `DdlGL::send_gl` (lines 194..216): rescale the speed, store the new
state, ship the telegram (`send_gl_tel`, abstracted as a telegram event)
and inform all info clients.  `none` models the `unwrap` panic when the
address is not initialised (the caller checked `contains_key`). -/
def DdlGL.send_gl (bus : Nat) (all_gl : GLMap) (adr : Nat) (drivemode : GLDriveMode)
    (v v_max : Nat) (funktionen : Nat) : Option (GLMap × List Event) :=
  match glLookup all_gl adr with
  | none => none
  | some gl =>
    let speed := DdlGL.compute_speed gl.protokoll_speedsteps v v_max
    let gl' := { gl with direction := drivemode, speed := speed, fnkt := funktionen }
    some (glUpdate all_gl adr gl',
      [Event.telegram adr, Event.msg (DdlGL.info_msg bus none adr gl')])

/-- The SET arm of `DdlGL::execute_cmd` (lines 641..660).  Because the
SET was queued, a TERM may have removed the address in the meantime;
the arm re-checks `contains_key` and does nothing at all when the
record is gone.  All `unwrap`s on the (validated) parameters are
modelled as `none`. -/
def DdlGL.execute_set (bus : Nat) (all_gl : GLMap) (m : SRCPMessage) :
    Option (GLMap × List Event) :=
  match m.parameter.get? 0 with
  | none => none
  | some p0 =>
    match parse_u32 p0 with
    | none => none
    | some adr =>
      if (glLookup all_gl adr).isSome then
        match GLDriveMode.fromStr (m.parameter.getD 1 "") with
        | none => none
        | some drivemode =>
          match parse_usize (m.parameter.getD 2 ""), parse_usize (m.parameter.getD 3 "") with
          | some v, some v_max =>
            if v_max = 0 then none
            else
              let funktionen := List.foldl
                (fun acc i => if m.parameter.getD i "" = "1" then acc ||| (1 <<< (i - 4)) else acc)
                0 (List.range' 4 (m.parameter.length - 4))
              DdlGL.send_gl bus all_gl adr drivemode v v_max funktionen
          | _, _ => none
      else
        some (all_gl, [])

/-! ## GA device handler (`srcp_devices_ddl_ga.rs`) -/

/-- `GAInit`: the stored record of one initialised accessory decoder
(`value` has length 2: the two ports). -/
structure GAInit where
  value : List Nat
  protokoll : DdlProtokolle
  protokoll_version : Option String
  trigger : Bool
deriving DecidableEq, Repr

/-- The `HashMap<u32, GAInit>` field `all_ga` as an association list. -/
def GAMap := List (Nat × GAInit)

/-- `all_ga.get(&adr)`. -/
def gaLookup (all_ga : GAMap) (adr : Nat) : Option GAInit :=
  (List.find? (fun p => p.1 == adr) all_ga).map (fun p => p.2)

/-- Replace the record stored under `adr`. -/
def gaUpdate (all_ga : GAMap) (adr : Nat) (g : GAInit) : GAMap :=
  List.map (fun p => if p.1 = adr then (adr, g) else p) all_ga

/-- `GADelayGrund`: a deferred activation (with its hold time in ms) or a
pending automatic switch-off (at an absolute time in ms). -/
inductive GADelayGrund where
  | einschalten (dauer_ms : Nat)
  | ausschalten (zeit_ms : Nat)
deriving DecidableEq, Repr

/-- `GADelay`. -/
structure GADelay where
  adr : Nat
  port : Nat
  ga_delay_grund : GADelayGrund
deriving DecidableEq, Repr

/-- `DdlGA::is_dekoder_aktiv` (lines 224..239): is a switch-off pending
for any port of the same physical decoder `(adr - 1) / 4`? -/
def DdlGA.is_dekoder_aktiv (all_ga_delay : List GADelay) (ga_adr : Nat) : Bool :=
  List.any all_ga_delay (fun d =>
    match d.ga_delay_grund with
    | .einschalten _ => false
    | .ausschalten _ => (ga_adr - 1) / 4 == (d.adr - 1) / 4)

/-- Whether `get_ga_tel` reports that the decoder handles the switch-off
timeout itself.  The MM and DCC codecs of this snapshot do not take the
timeout over (MFX supports no GA at all), so this is always `false`. -/
def ga_tel_timeout_consumed (_p : DdlProtokolle) : Bool :=
  false

/-- `DdlGA::send_ga` (lines 186..218): store the port value, ship the
telegram and inform all info clients.  Returns the codec's
timeout-consumed flag alongside the new state and events. -/
def DdlGA.send_ga (bus : Nat) (all_ga : GAMap) (adr port value : Nat) :
    Option (GAMap × List Event × Bool) :=
  match gaLookup all_ga adr with
  | none => none
  | some ga =>
    let ga' := { ga with value := ga.value.set port value }
    let info : SRCPMessage :=
      { session_id := none
        bus := bus
        message_id := .info "100"
        device := .GA
        parameter := [Nat.repr adr, Nat.repr port, Nat.repr value] }
    some (gaUpdate all_ga adr ga',
      [Event.telegram adr, Event.msg info],
      ga_tel_timeout_consumed ga.protokoll)

/-- `DdlGA::set_ga_on_timeout` (lines 246..256): switch on; unless the
codec took the timeout over, record the pending automatic switch-off. -/
def DdlGA.set_ga_on_timeout (bus : Nat) (all_ga : GAMap) (all_ga_delay : List GADelay)
    (adr port : Nat) (timeout_ms now_ms : Nat) :
    Option (GAMap × List GADelay × List Event) :=
  match DdlGA.send_ga bus all_ga adr port 1 with
  | none => none
  | some (all_ga', events, consumed) =>
    if consumed then
      some (all_ga', all_ga_delay, events)
    else
      some (all_ga', all_ga_delay ++
        [{ adr := adr, port := port, ga_delay_grund := .ausschalten (now_ms + timeout_ms) }],
        events)

/-- The SET arm of `DdlGA::execute_cmd` (lines 454..487).  As with GL,
the arm re-checks `contains_key` because a TERM may have raced the
queued SET, and does nothing when the record is gone. -/
def DdlGA.execute_set (bus : Nat) (all_ga : GAMap) (all_ga_delay : List GADelay)
    (m : SRCPMessage) (now_ms : Nat) :
    Option (GAMap × List GADelay × List Event) :=
  match m.parameter.get? 0 with
  | none => none
  | some p0 =>
    match parse_u32 p0 with
    | none => none
    | some adr =>
      if (gaLookup all_ga adr).isSome then
        match parse_usize (m.parameter.getD 1 ""), parse_usize (m.parameter.getD 2 ""),
            parse_i32 (m.parameter.getD 3 "") with
        | some port, some value, some t =>
          if value ≠ 0 ∧ 0 < t then
            if DdlGA.is_dekoder_aktiv all_ga_delay adr then
              some (all_ga, all_ga_delay ++
                [{ adr := adr, port := port, ga_delay_grund := .einschalten t.toNat }], [])
            else
              DdlGA.set_ga_on_timeout bus all_ga all_ga_delay adr port t.toNat now_ms
          else
            match DdlGA.send_ga bus all_ga adr port value with
            | none => none
            | some (all_ga', events, _) => some (all_ga', all_ga_delay, events)
        | _, _, _ => none
      else
        some (all_ga, all_ga_delay, [])

/-! ## DCC codec: the speed byte of `get_gl_basis_tel`
(`srcp_protocol_ddl_dcc.rs` lines 466..539) -/

/-- Speed-step boundaries (`SPEED_STEP_4BIT`, `SPEED_STEP_5BIT`). -/
def SPEED_STEP_4BIT : Nat := 14

def SPEED_STEP_5BIT : Nat := 29

/-- The drive-mode actually used: an emergency stop keeps the stored
direction (`old_drive_mode`). -/
def DccProtokoll.drive_mode_used (drive_mode old : GLDriveMode) : GLDriveMode :=
  if drive_mode = GLDriveMode.Nothalt then old else drive_mode

/-- `speed_used` (lines 482..490): 1 encodes the emergency stop; any
nonzero speed is shifted up by one because raw value 1 is the stop
code. -/
def DccProtokoll.speed_used (drive_mode : GLDriveMode) (speed : Nat) : Nat :=
  if drive_mode = GLDriveMode.Nothalt then 1
  else if speed = 0 then 0 else speed + 1

/-- The DCC speed byte emitted by `get_gl_basis_tel` (lines 495..537),
as a function of the requested drive mode, raw speed, configured
speed-step count, function bitmap and the stored previous drive mode:

* more than 29 steps: advanced-operations 128-step byte, direction in
  the MSB and the raw 7-bit speed (this byte follows a separate
  instruction byte, which is not part of this value);
* 15..29 steps: `01DC_SSSS`-style byte with the 5-bit speed split over
  bits 0..3 and bit 4;
* up to 14 steps: 4-bit speed in bits 0..3 and function F0 in bit 4. -/
def DccProtokoll.speed_byte (drive_mode : GLDriveMode) (speed speed_steps : Nat)
    (funktionen : Nat) (old : GLDriveMode) : Nat :=
  let dmu := DccProtokoll.drive_mode_used drive_mode old
  let su := DccProtokoll.speed_used drive_mode speed
  if SPEED_STEP_5BIT < speed_steps then
    (speed &&& 0b01111111) ||| (if dmu = GLDriveMode.Vorwaerts then 0b10000000 else 0)
  else
    let base := if dmu = GLDriveMode.Vorwaerts then 0b01100000 else 0b01000000
    if SPEED_STEP_4BIT < speed_steps then
      let su5 := match su with
        | 0 => 0
        | 1 => 2
        | _ => su + 2
      base ||| ((su5 >>> 1) &&& 0b00001111) ||| ((su5 <<< 4) &&& 0b00010000)
    else
      base ||| (su &&& 0b00001111) ||| (((funktionen &&& 1) <<< 4) &&& 0b00010000)

/-- The assertion guarding `DccProtokoll::get_gl_basis_tel` (line 473):
`assert!(speed <= speed_steps, "DCC Speed > Speed Steps")`. -/
def DccProtokoll.speed_assert (speed speed_steps : Nat) : Prop :=
  speed ≤ speed_steps

/-! ## MM codec (`srcp_protocol_ddl_mm.rs`)

One trinary symbol is four SPI bytes (double baud rate, two bytes per
wire bit). -/

/-- `MM_BIT_L` (`C0 00 C0 00`, trit value 0). -/
def MM_BIT_L : List Nat := [0xC0, 0x00, 0xC0, 0x00]

/-- `MM_BIT_H` (`FF FC FF FC`, trit value 1). -/
def MM_BIT_H : List Nat := [0xFF, 0xFC, 0xFF, 0xFC]

/-- `MM_BIT_O` (`FF FC C0 00`, "open" trit value 2). -/
def MM_BIT_O : List Nat := [0xFF, 0xFC, 0xC0, 0x00]

/-- `MM_BIT_L_GA` (widened 0-pulse for accessory decoders). -/
def MM_BIT_L_GA : List Nat := [0xE0, 0x00, 0xE0, 0x00]

/-- `MM_BIT_O_GA`. -/
def MM_BIT_O_GA : List Nat := [0xFF, 0xFC, 0xE0, 0x00]

/-- `MM_BIT_U` (`C0 00 FF FC`). -/
def MM_BIT_U : List Nat := [0xC0, 0x00, 0xFF, 0xFC]

/-- The base-3 digits of the decoder address, least significant first,
as produced by the `adr_trit = adr_dekoder % 3; adr_dekoder /= 3` loop. -/
def mm_adr_trits : Nat → Nat → List Nat
  | 0, _ => []
  | n + 1, a => (a % 3) :: mm_adr_trits n (a / 3)

/-- `MMProtokoll::add_mm_adr` (`srcp_protocol_ddl_mm.rs` lines 96..131):
the four trinary address symbols appended to the telegram.  The source
asserts `adr_dekoder < 81` and maps address 80 to 0 before encoding
("Adresse 80 wird als 0000 gesendet"). -/
def MMProtokoll.add_mm_adr (adr_dekoder : Nat) (ga_timing : Bool) : List Nat :=
  let adr0 := if adr_dekoder = 80 then 0 else adr_dekoder
  let mm_bit_l := if ga_timing then MM_BIT_L_GA else MM_BIT_L
  let mm_bit_o := if ga_timing then MM_BIT_O_GA else MM_BIT_O
  List.foldl
    (fun acc t =>
      acc ++ (if t = 0 then mm_bit_l else if t = 1 then MM_BIT_H else mm_bit_o))
    [] (mm_adr_trits 4 adr0)

/-- The address field of the MM idle telegram (`MMProtokoll::get_idle_tel`,
lines 595..610): four `MM_BIT_O` symbols appended by hand ("Adr 80 ist
4 * O Trit"). -/
def MMProtokoll.idle_adr_field : List Nat :=
  MM_BIT_O ++ MM_BIT_O ++ MM_BIT_O ++ MM_BIT_O

/-! ## MFX codec (`srcp_protocol_ddl_mfx.rs`)

One MFX wire bit is two SPI bytes; every bit starts with an edge and a
`1` has a second edge in the middle.  The builder state is the byte
vector of the telegram frame under construction together with the
run-length counter for bit stuffing (`anz_eins`). -/

/-- `MFX_STARTSTOP_0_BIT`. -/
def MFX_STARTSTOP_0_BIT : Nat := 4

/-- `SPI_BYTES_PRO_BIT`. -/
def SPI_BYTES_PRO_BIT : Nat := 2

/-- `SPI_BAUDRATE_MFX`. -/
def SPI_BAUDRATE_MFX : Nat := 80000

/-- `SPI_BAUDRATE_MFX_2`. -/
def SPI_BAUDRATE_MFX_2 : Nat := SPI_BAUDRATE_MFX * SPI_BYTES_PRO_BIT

/-- `MFX_LEN_PAUSE_6_4_MS`: the 6.4 ms response window in SPI bytes
(= 128). -/
def MFX_LEN_PAUSE_6_4_MS : Nat := 6400 * SPI_BAUDRATE_MFX_2 / (1000000 * 8)

/-- `MFX_LEN_PAUSE_1_MS` (local constant of
`eval_send_search_new_decoder`). -/
def MFX_LEN_PAUSE_1_MS : Nat := MFX_LEN_PAUSE_6_4_MS / 6

/-- MFX telegram builder state: the bytes of the frame being built and
the `anz_eins` bit-stuffing counter. -/
structure MfxSt where
  frame : List Nat
  anz_eins : Nat
deriving DecidableEq, Repr

/-- The `values` pair of `add_bit`/`add_sync`: output levels depending on
the parity of the frame's last byte (the last level on the wire).  The
first component is Rust `values.0`, the second `values.1`. -/
def mfx_vals (last : Nat) : Nat × Nat :=
  if last % 2 = 0 then (0x00, 0xFF) else (0xFF, 0x00)

/-- One push of `MfxProtokoll::add_bit` without the stuffing recursion:
two bytes (edge, then middle edge for a `1`), and the `anz_eins`
update.  The frame is never empty at any call site (a start sync was
appended first), so the `last().unwrap()` cannot panic. -/
def MfxProtokoll.add_bit_raw (st : MfxSt) (bit : Bool) : MfxSt :=
  let v := mfx_vals (st.frame.getLastD 0)
  { frame := st.frame ++ [v.2, if bit then v.1 else v.2]
    anz_eins := if bit then st.anz_eins + 1 else 0 }

/-- `MfxProtokoll::add_bit` (lines 294..316): after the eighth
consecutive `1` a `0` is stuffed in (the recursive `add_bit(false)`
call, which cannot recurse again). -/
def MfxProtokoll.add_bit (st : MfxSt) (bit : Bool) : MfxSt :=
  let st' := MfxProtokoll.add_bit_raw st bit
  if bit ∧ 8 ≤ st'.anz_eins then MfxProtokoll.add_bit_raw st' false else st'

/-- `MfxProtokoll::add_bits` without the CRC update: the bits of `value`
are emitted most significant first (`maske = 1 << (count-1)`, shifted
right each round). -/
def MfxProtokoll.add_bits (st : MfxSt) (value count : Nat) : MfxSt :=
  List.foldl
    (fun s i => MfxProtokoll.add_bit s ((value &&& (1 <<< (count - 1 - i))) != 0))
    st (List.range count)

/-- `MfxProtokoll::crc` (lines 277..287): feed `count` bits of `value`
(MSB first) into the CRC register; on carry into bit 8 the register is
masked and xored with `0x07`.  The final `as u8` cast is the `% 256`. -/
def MfxProtokoll.crc_step (value count : Nat) (crc : Nat) : Nat :=
  (List.foldl
    (fun c i =>
      let c' := (c <<< 1) ||| ((value >>> (count - 1 - i)) &&& 1)
      if 0 < c' &&& 0x100 then (c' &&& 0xFF) ^^^ 0x07 else c')
    crc (List.range count)) % 256

/-- `MfxProtokoll::add_bits` (lines 322..330): emit the bits and update
the CRC. -/
def MfxProtokoll.add_bits_crc (st : MfxSt) (value count : Nat) (crc : Nat) : MfxSt × Nat :=
  (MfxProtokoll.add_bits st value count, MfxProtokoll.crc_step value count crc)

/-- `MfxProtokoll::add_sync` (lines 336..357): the sync pattern
`0 1 1 [rule violation] [rule violation] 0` as ten bytes (five for a
half sync), starting from the current wire level; resets `anz_eins`. -/
def MfxProtokoll.add_sync (st : MfxSt) (halb : Bool) : MfxSt :=
  let v := mfx_vals (st.frame.getLastD 0)
  { frame := st.frame ++ [v.2, v.2, v.1, v.2, v.2]
      ++ (if halb then [] else [v.1, v.1, v.2, v.1, v.1])
    anz_eins := 0 }

/-- `MfxProtokoll::add_start_sync` (lines 361..367): leading zero bytes,
then a full sync. -/
def MfxProtokoll.add_start_sync (st : MfxSt) : MfxSt :=
  MfxProtokoll.add_sync
    { st with frame := st.frame ++ List.replicate (MFX_STARTSTOP_0_BIT * SPI_BYTES_PRO_BIT) 0 }
    false

/-- `MfxProtokoll::add_crc` (lines 372..376): finalise the CRC with
eight zero bits, then emit the resulting byte. -/
def MfxProtokoll.add_crc (st : MfxSt) (crc : Nat) : MfxSt × Nat :=
  let crc' := MfxProtokoll.crc_step 0 8 crc
  MfxProtokoll.add_bits_crc st crc' 8 crc'

/-- `MfxProtokoll::add_adr` (lines 402..418): address field with 7, 9,
11 or 14 bit addressing, starting the CRC at `0x7F`. -/
def MfxProtokoll.add_adr (st : MfxSt) (adr : Nat) : MfxSt × Nat :=
  let crc0 : Nat := 0x7F
  if adr < 128 then
    let p := MfxProtokoll.add_bits_crc st 0b10 2 crc0
    MfxProtokoll.add_bits_crc p.1 adr 7 p.2
  else if adr < 512 then
    let p := MfxProtokoll.add_bits_crc st 0b110 3 crc0
    MfxProtokoll.add_bits_crc p.1 adr 9 p.2
  else if adr < 2048 then
    let p := MfxProtokoll.add_bits_crc st 0b1110 4 crc0
    MfxProtokoll.add_bits_crc p.1 adr 11 p.2
  else
    let p := MfxProtokoll.add_bits_crc st 0b1111 4 crc0
    MfxProtokoll.add_bits_crc p.1 adr 14 p.2

/-- `MfxProtokoll::send_search_new_decoder` (lines 458..509) with the
number of sync patterns before the `0011` marker as a parameter, so
that the frame the code builds and the frame the specification
describes can be compared.  Returns the finished frame state and
`rds_1_bit_start_pos`.  Note that the `0011` marker reuses the CRC
value from before `add_crc` (the Rust `add_crc` call takes its `crc`
argument by value), which only affects a dead CRC variable, not the
frame. -/
def MfxProtokoll.search_frame_with (sync_count : Nat) (bits uid : Nat) : MfxSt × Nat :=
  let st0 : MfxSt := { frame := [], anz_eins := 0 }
  let st1 := MfxProtokoll.add_start_sync st0
  let p2 := MfxProtokoll.add_adr st1 0
  let p3 := MfxProtokoll.add_bits_crc p2.1 0b111010 6 p2.2
  let p4 := MfxProtokoll.add_bits_crc p3.1 bits 6 p3.2
  let p5 := MfxProtokoll.add_bits_crc p4.1 uid 32 p4.2
  let p6 := MfxProtokoll.add_crc p5.1 p5.2
  let st7 := List.foldl (fun s _ => MfxProtokoll.add_sync s false) p6.1 (List.range sync_count)
  let st8 := if st7.frame.getLastD 0 = 0 then MfxProtokoll.add_sync st7 true else st7
  let p9 := MfxProtokoll.add_bits_crc st8 0b0011 4 p5.2
  let rds_start := p9.1.frame.length
  let st10 := { p9.1 with frame := p9.1.frame ++ List.replicate MFX_LEN_PAUSE_6_4_MS 0 }
  let st11 := MfxProtokoll.add_sync st10 false
  let st12 := { st11 with frame := st11.frame ++ List.replicate MFX_LEN_PAUSE_6_4_MS 0xFF }
  let st13 := MfxProtokoll.add_sync st12 false
  let st14 := MfxProtokoll.add_sync st13 false
  (st14, rds_start)

/-- The frame `MfxProtokoll::send_search_new_decoder` actually builds.
The sync loop in the source is `for _ in [0..11] { self.add_sync(...) }`:
`[0..11]` is a Rust array literal holding a single `Range` value, so the
loop body runs once per array element, i.e. exactly once -- unlike
`for _ in 0..11`, which would run it eleven times.  The singleton list
below mirrors that one-element array. -/
def MfxProtokoll.send_search_new_decoder (bits uid : Nat) : MfxSt × Nat :=
  MfxProtokoll.search_frame_with (List.length [(0, 11)]) bits uid

/-- `ResultNeuAnmeldung` (newer `srcp_protocol_ddl.rs` snapshot, as used
by `srcp_protocol_ddl_mfx.rs`; the error message string is not
modelled). -/
inductive ResultNeuAnmeldung where
  | noResult
  | inProgress
  | ok (uid : Nat)
  | error
deriving DecidableEq, Repr

/-- The decoder-search state of `MfxProtokoll` together with the
registration counter (`reg_counter`, a `u16`). -/
structure SearchState where
  search_new_dekoder_bits : Nat
  search_new_dekoder_uid : Nat
  reg_counter : Nat
  rds_1_bit_start_pos : Nat
deriving DecidableEq, Repr

/-- `u8::count_ones`. -/
def u8_count_ones (b : Nat) : Nat :=
  List.foldl (fun a i => a + ((b >>> i) &&& 1)) 0 (List.range 8)

/-- The `anz_1` accumulation of `eval_send_search_new_decoder` (lines
522..527): popcount of the response window, skipping the first and last
millisecond.  Out-of-bounds indexing (a Rust panic) cannot occur because
the scheduler allocates `daten_rx` with the full frame length; missing
bytes read as 0 here. -/
def MfxProtokoll.anz_1 (daten_rx : List Nat) (start : Nat) : Nat :=
  List.foldl (fun a i => a + u8_count_ones (daten_rx.getD i 0)) 0
    (List.range' (start + MFX_LEN_PAUSE_1_MS)
      (MFX_LEN_PAUSE_6_4_MS - 2 * MFX_LEN_PAUSE_1_MS))

/-- The 5% threshold of `eval_send_search_new_decoder` (line 530). -/
def MfxProtokoll.search_threshold : Nat :=
  (MFX_LEN_PAUSE_6_4_MS - MFX_LEN_PAUSE_1_MS) * 8 / 20

/-- `MfxProtokoll::eval_send_search_new_decoder` (lines 517..578).
Returns the new search state, the evaluation result and the list of
values written to the registration-counter file (in order;
`save_registration_counter` writes `reg_counter.to_string()`).  The
`u16` increment wraps modulo `2^16` (release-build semantics).  On a
positive response with 32 matched bits and a nonzero UID the counter is
incremented and persisted, then the search state is reset; every other
outcome leaves the counter alone and writes nothing. -/
def MfxProtokoll.eval_send_search_new_decoder (st : SearchState) (daten_rx : List Nat) :
    SearchState × ResultNeuAnmeldung × List Nat :=
  if MfxProtokoll.search_threshold ≤ MfxProtokoll.anz_1 daten_rx st.rds_1_bit_start_pos then
    if 32 ≤ st.search_new_dekoder_bits then
      if st.search_new_dekoder_uid = 0 then
        ({ st with search_new_dekoder_bits := 0, search_new_dekoder_uid := 0 },
          .error, [])
      else
        let counter' := (st.reg_counter + 1) % 2 ^ 16
        ({ st with
            search_new_dekoder_bits := 0
            search_new_dekoder_uid := 0
            reg_counter := counter' },
          .ok st.search_new_dekoder_uid, [counter'])
    else
      ({ st with search_new_dekoder_bits := st.search_new_dekoder_bits + 1 },
        .inProgress, [])
  else
    if 0 < st.search_new_dekoder_bits then
      let bit := 0x80000000 >>> (st.search_new_dekoder_bits - 1)
      if st.search_new_dekoder_uid &&& bit = 0 then
        ({ st with search_new_dekoder_uid := st.search_new_dekoder_uid ||| bit },
          .noResult, [])
      else
        ({ st with search_new_dekoder_bits := 0, search_new_dekoder_uid := 0 },
          .noResult, [])
    else
      (st, .noResult, [])

/-! ## DCC service-mode programming thread (`srcp_dcc_prog.rs`)

The thread receives `SmReadWrite` jobs, validates them, hands verify and
write telegrams to the DDL thread (`tx_tel`), and samples the decoder
acknowledgement GPIO.  The environment (decoder acknowledgement
behaviour per programming-track telegram) is modelled as a list of
`Option Bool` outcomes consumed one per programming-track send:
`some true` a clean acknowledgement, `some false` none within 200 ms,
`none` the "acknowledgement already pending before the command" error. -/

/-- `DCC_SM_TYPE_CV`. -/
def DCC_SM_TYPE_CV : String := "CV"

/-- `DCC_SM_TYPE_CVBIT`. -/
def DCC_SM_TYPE_CVBIT : String := "CVBIT"

/-- `SmReadWriteType` (newer `srcp_protocol_ddl.rs` snapshot, as used by
`srcp_dcc_prog.rs`). -/
inductive SmReadWriteType where
  | Read
  | Write (v : Nat)
  | Verify (v : Nat)
  | ResultOk (v : Nat)
  | ResultErr
deriving DecidableEq, Repr

/-- `SmReadWrite` (fields as used by `srcp_dcc_prog.rs` and
`srcp_devices_ddl_sm.rs`; `para` entries are `u32`). -/
structure SmReadWrite where
  adr : Nat
  prog_gleis : Bool
  sm_type : String
  para : List Nat
  val : SmReadWriteType
  trigger : Bool
deriving DecidableEq, Repr

/-- `DccCvTelType`. -/
inductive DccCvTelType where
  | VerifyBit (v : Bool) (bitnr : Nat)
  | VerifyByte (v : Nat)
  | WriteByte (v : Nat) (prog_gleis : Bool)
  | WriteBit (v : Bool) (bitnr : Nat) (prog_gleis : Bool)
deriving DecidableEq, Repr

/-- `DccCvTel`. -/
structure DccCvTel where
  adr : Nat
  dcc_cv_type : DccCvTelType
  cv : Nat
  trigger : Bool
deriving DecidableEq, Repr

/-- The decoder-acknowledgement environment: outcomes consumed one per
programming-track telegram. -/
def AckEnv := List (Option Bool)

/-- `DccProgThread::send_dcc_cv_tel` (lines 93..125): the telegram is
always handed to the DDL thread first; on the programming track the
result is the environment's acknowledgement outcome (an exhausted
environment reads as "no acknowledgement within the timeout"), on the
main track it is always `some true`. -/
def DccProgThread.send_dcc_cv_tel (tel : DccCvTel) (prog_gleis : Bool) (env : AckEnv) :
    Option Bool × AckEnv × List DccCvTel :=
  if prog_gleis then
    match env with
    | a :: rest => (a, rest, [tel])
    | [] => (some false, [], [tel])
  else
    (some true, env, [tel])

/-- `DccProgThread::execute_sm_cmd_write_ver` (lines 133..167).  The SM
device validation guarantees one parameter for `CV` and two for
`CVBIT`; the `as u8`/`as u16` casts are the `% 256`/`% 65536`. -/
def DccProgThread.execute_sm_cmd_write_ver (smcmd : SmReadWrite) (env : AckEnv) :
    Option Bool × AckEnv × List DccCvTel :=
  if smcmd.prog_gleis || (match smcmd.val with | .Write _ => true | _ => false) then
    let dcc_cv_type : Option DccCvTelType :=
      match smcmd.val with
      | .Write v =>
        some (if smcmd.sm_type = DCC_SM_TYPE_CV then
          .WriteByte (v % 256) smcmd.prog_gleis
        else
          .WriteBit (v ≠ 0) (smcmd.para.getD 1 0 % 256) smcmd.prog_gleis)
      | .Verify v =>
        some (if smcmd.sm_type = DCC_SM_TYPE_CV then
          .VerifyByte (v % 256)
        else
          .VerifyBit (v ≠ 0) (smcmd.para.getD 1 0 % 256))
      | _ => none
    match dcc_cv_type with
    | some t =>
      DccProgThread.send_dcc_cv_tel
        { adr := smcmd.adr
          dcc_cv_type := t
          cv := smcmd.para.getD 0 0 % 2 ^ 16
          trigger := smcmd.trigger }
        smcmd.prog_gleis env
    | none => (none, env, [])
  else
    (none, env, [])

/-- `DccProgThread::read_cv_bit` (lines 177..199): verify the bit
against 0 and then against 1; exactly one of the two must acknowledge. -/
def DccProgThread.read_cv_bit (adr cv bitnr : Nat) (trigger : Bool) (env : AckEnv) :
    Option Nat × AckEnv × List DccCvTel :=
  let s0 := DccProgThread.send_dcc_cv_tel
    { adr := adr, dcc_cv_type := .VerifyBit false bitnr, cv := cv, trigger := trigger }
    true env
  let s1 := DccProgThread.send_dcc_cv_tel
    { adr := adr, dcc_cv_type := .VerifyBit true bitnr, cv := cv, trigger := trigger }
    true s0.2.1
  let tels := s0.2.2 ++ s1.2.2
  match s0.1, s1.1 with
  | some b0, some b1 =>
    if b0 ≠ b1 then
      (some (if b1 then 1 else 0), s1.2.1, tels)
    else
      (none, s1.2.1, tels)
  | _, _ => (none, s1.2.1, tels)

/-- The `for bitnr in 0..=7` loop of `DccProgThread::read_cv` with its
early error return, collecting the result bits `result |= bitval << bitnr`. -/
def DccProgThread.read_cv_bits (adr cv : Nat) (trigger : Bool) :
    List Nat → Nat → AckEnv → Option Nat × AckEnv × List DccCvTel
  | [], acc, env => (some acc, env, [])
  | b :: rest, acc, env =>
    match DccProgThread.read_cv_bit adr cv b trigger env with
    | (some bitval, env', tels) =>
      let r := DccProgThread.read_cv_bits adr cv trigger rest (acc ||| (bitval <<< b)) env'
      (r.1, r.2.1, tels ++ r.2.2)
    | (none, env', tels) => (none, env', tels)

/-- `DccProgThread::read_cv` (lines 207..244): a whole CV byte is read
as eight bit-verifies followed by a whole-byte verify; a `CVBIT` job
reads the single bit. -/
def DccProgThread.read_cv (smcmd : SmReadWrite) (env : AckEnv) :
    Option Nat × AckEnv × List DccCvTel :=
  let cv := smcmd.para.getD 0 0 % 2 ^ 16
  if smcmd.sm_type = DCC_SM_TYPE_CV then
    match DccProgThread.read_cv_bits smcmd.adr cv smcmd.trigger
        [0, 1, 2, 3, 4, 5, 6, 7] 0 env with
    | (some result, env', tels) =>
      let ver := DccProgThread.execute_sm_cmd_write_ver
        { smcmd with val := .Verify result } env'
      match ver.1 with
      | some true => (some result, ver.2.1, tels ++ ver.2.2)
      | some false => (none, ver.2.1, tels ++ ver.2.2)
      | none => (none, ver.2.1, tels ++ ver.2.2)
    | (none, env', tels) => (none, env', tels)
  else
    DccProgThread.read_cv_bit smcmd.adr cv (smcmd.para.getD 1 0 % 256) smcmd.trigger env

/-- The parameter-validity check of `DccProgThread::execute` (lines
258..275), translated keeping the source's `||` in the CV range check:
`((smcmd.para[0] >= 1) || (smcmd.para[0] <= 1024))` is a tautology on
`u32`, so the CV range is in fact never restricted (the comment above
it, "CV: 1 bis 1024", announces an interval check). -/
def DccProgThread.para_valid (smcmd : SmReadWrite) : Bool :=
  let val := match smcmd.val with
    | .Write v => v
    | .Verify v => v
    | _ => 0
  (smcmd.sm_type == DCC_SM_TYPE_CV || smcmd.sm_type == DCC_SM_TYPE_CVBIT)
    && (decide (1 ≤ smcmd.para.getD 0 0) || decide (smcmd.para.getD 0 0 ≤ 1024))
    && (if smcmd.sm_type == DCC_SM_TYPE_CVBIT then
          decide (val ≤ 1) && decide (smcmd.para.getD 1 0 ≤ 7)
        else
          decide (val ≤ 255))

/-- One iteration of `DccProgThread::execute` (lines 250..302): validate
the job, run it, and return the answer that is sent back together with
the telegrams handed to the DDL thread.  An invalid job answers
`ResultErr` without any telegram. -/
def DccProgThread.execute_step (smcmd : SmReadWrite) (env : AckEnv) :
    SmReadWriteType × List DccCvTel :=
  if DccProgThread.para_valid smcmd then
    match smcmd.val with
    | .Read =>
      match DccProgThread.read_cv smcmd env with
      | (some v, _, tels) => (.ResultOk v, tels)
      | (none, _, tels) => (.ResultErr, tels)
    | .Write v =>
      match DccProgThread.execute_sm_cmd_write_ver smcmd env with
      | (some true, _, tels) => (.ResultOk v, tels)
      | (some false, _, tels) => (.ResultErr, tels)
      | (none, _, tels) => (.ResultErr, tels)
    | .Verify v =>
      match DccProgThread.execute_sm_cmd_write_ver smcmd env with
      | (some true, _, tels) => (.ResultOk v, tels)
      | (some false, _, tels) => (.ResultErr, tels)
      | (none, _, tels) => (.ResultErr, tels)
    | _ => (.ResultErr, [])
  else
    (.ResultErr, [])

/-! ## Helper lemmas -/

theorem countP_eraseP_eq_zero (p : α → Bool) (l : List α) (h : l.countP p ≤ 1) :
    (l.eraseP p).countP p = 0 := by
  induction l with
  | nil => simp
  | cons a l ih =>
    by_cases hp : p a
    · rw [List.eraseP_cons_of_pos hp]
      rw [List.countP_cons_of_pos _ _ hp] at h
      have : l.countP p = 0 := by omega
      exact this
    · rw [List.eraseP_cons_of_neg hp]
      rw [List.countP_cons_of_neg _ _ hp] at h
      rw [List.countP_cons_of_neg _ _ hp]
      exact ih h

theorem join_cons (a : String) (l : List String) : String.join (a :: l) = a ++ String.join l := by
  simp [String.join]
  induction l generalizing a with
  | nil => simp
  | cons b t ih =>
    simp [List.foldl]
    rw [ih (a ++ b)]
    rw [ih b]
    exact (String.append_assoc a b _)

theorem canonical_cons_space (x : String) (ps : List String) :
    canonical_line (x :: ps) ++ " " = x ++ " " ++ String.join (ps.map (fun p => p ++ " ")) := by
  induction ps generalizing x with
  | nil => simp [canonical_line, String.join, String.append_empty]
  | cons p ps ih =>
    show (x ++ " " ++ canonical_line (p :: ps)) ++ " " = _
    rw [String.append_assoc (x ++ " ") (canonical_line (p :: ps)) " "]
    rw [ih p]
    rw [List.map_cons, join_cons]

theorem SRCPMessageType.roundtrip_fromStr {t : String} {ty : SRCPMessageType}
    (h : SRCPMessageType.fromStr t = some ty) : ty.to_string = t := by
  unfold SRCPMessageType.fromStr at h
  split at h <;> first
    | (injection h with h; subst h; rfl)
    | exact Option.noConfusion h

theorem SRCPMessageDevice.device_roundtrip_fromStr {d : String} {dev : SRCPMessageDevice}
    (h : SRCPMessageDevice.fromStr d = some dev) : dev.to_string = d := by
  unfold SRCPMessageDevice.fromStr at h
  split at h <;> first
    | (injection h with h; subst h; rfl)
    | exact Option.noConfusion h

/-- Whether a decoder-search evaluation reported a completed discovery. -/
def ResultNeuAnmeldung.isOk : ResultNeuAnmeldung → Bool
  | .ok _ => true
  | _ => false

/-! ## Concrete fixtures used by the claim theorems -/

/-- A protocol registry with DCC version 1 (short addresses). -/
def reg_example : ProtRegistry :=
  [(DdlProtokolle.Dcc, [("1", { uid := false, gl_max_adr := 127, ga_max_adr := 2047 })])]

/-- One initialised DCC locomotive at address 5 with 14 speed steps. -/
def all_gl_example : GLMap :=
  [(5, { direction := .Vorwaerts, speed := 0, fnkt := 0, protokoll := .Dcc,
         protokoll_version := "1", protokoll_speedsteps := 14,
         protokoll_number_functions := 2, protokoll_uid := none, param := [] })]

/-- `SET <bus> GL 5 0 1 1 2 2`: two function values outside 0/1. -/
def c1_set_cmd : SRCPMessage :=
  { session_id := some 1, bus := 1, message_id := .command .SET, device := .GL,
    parameter := ["5", "0", "1", "1", "2", "2"] }

/-- `TERM <bus> GL` with an empty parameter list. -/
def c1_term_cmd : SRCPMessage :=
  { session_id := some 1, bus := 1, message_id := .command .TERM, device := .GL,
    parameter := [] }

/-- `SET <bus> GL 5 0 2 1`: drivemode 0, `v = 2`, `v_max = 1` -- every
validation condition holds although `v > v_max`. -/
def c3_set_cmd : SRCPMessage :=
  { session_id := some 1, bus := 1, message_id := .command .SET, device := .GL,
    parameter := ["5", "0", "2", "1"] }

/-- An acknowledgement environment in which no decoder ever answers. -/
def c4_env : AckEnv := List.replicate 20 (some false)

/-- A GL SET for address 3 as the queue-model witness message. -/
def w2_cmd : SRCPMessage :=
  { session_id := some 1, bus := 1, message_id := .command .SET, device := .GL,
    parameter := ["3", "1", "7", "14", "1"] }

/-- Discovery state just before the 33rd positive response: 32 matched
bits, UID 5, counter 7. -/
def c8_state_example : SearchState :=
  { search_new_dekoder_bits := 32, search_new_dekoder_uid := 5, reg_counter := 7,
    rds_1_bit_start_pos := 0 }

/-- A MISO capture whose whole response window reads as energy. -/
def c8_rx_example : List Nat := List.replicate 128 255

/-- The parse of `GET 1 GL 3`. -/
def c9_msg_example : SRCPMessage :=
  { session_id := some 1, bus := 1, message_id := .command .GET, device := .GL,
    parameter := ["3"] }

/-- A queued GL SET for the (since TERMed) address 7. -/
def w10_gl_cmd : SRCPMessage :=
  { session_id := some 2, bus := 1, message_id := .command .SET, device := .GL,
    parameter := ["7", "1", "3", "14", "1"] }

/-- A queued GA SET for the (since TERMed) address 7. -/
def w10_ga_cmd : SRCPMessage :=
  { session_id := some 2, bus := 1, message_id := .command .SET, device := .GA,
    parameter := ["7", "0", "1", "200"] }

/-! ## The claims -/

/-- C1: the claim says every command record passed to `DdlGL::validate_cmd`
produces exactly one reply (one OK or one ERROR) without panicking, in
particular a GL SET with more than one function value outside 0/1 and a
GL TERM with an empty parameter list.  The code violates both parts,
evaluated here at the failing inputs: the SET function-value loop has no
`break`, so `SET ... 2 2` sends two `412` errors, and the TERM arm
indexes `parameter[0]` without a length guard, so an empty parameter
list panics (`none`). -/
theorem C1_validate_cmd_replies :
    DdlGL.validate_cmd reg_example all_gl_example c1_set_cmd
      = some (false, [c1_set_cmd.new_err "412" "wrong value",
                      c1_set_cmd.new_err "412" "wrong value"])
    ∧ DdlGL.validate_cmd reg_example all_gl_example c1_term_cmd = none := by
  decide

/-- C2: in every reachable state of one DDL bus scheduler, the command
queue holds at most one GL SET per locomotive address, because enqueueing
a newly validated GL SET first removes any older undispatched GL SET for
the same address. -/
theorem C2_queue_at_most_one_gl_set (queue : List SRCPMessage)
    (h : QueueReachable queue) :
    ∀ a : Option Nat, count_gl_adr queue a ≤ 1 := by
  induction h with
  | empty => intro a; simp [count_gl_adr]
  | enq q m hq hm ih =>
    intro a
    unfold count_gl_adr enqueue
    rw [List.countP_append]
    by_cases hdev : m.device = SRCPMessageDevice.GL
    · rw [if_pos hdev]
      by_cases ha : m.get_adr = a
      · subst ha
        have h0 : ((remove_old_gl m.get_adr q).countP
            (fun x => x.device == SRCPMessageDevice.GL && x.get_adr == m.get_adr)) = 0 :=
          countP_eraseP_eq_zero _ q (ih m.get_adr)
        rw [h0]
        simp [List.countP_cons, hdev]
      · have h1 : (List.countP
            (fun x => x.device == SRCPMessageDevice.GL && x.get_adr == a) [m]) = 0 := by
          simp [List.countP_cons, ha]
        rw [h1]
        have hsub : List.Sublist (remove_old_gl m.get_adr q) q := List.eraseP_sublist q
        have h2 := hsub.countP_le
          (fun x => x.device == SRCPMessageDevice.GL && x.get_adr == a)
        have h3 := le_trans h2 (ih a)
        unfold count_gl_adr at h3
        omega
    · rw [if_neg hdev]
      have h1 : (List.countP
          (fun x => x.device == SRCPMessageDevice.GL && x.get_adr == a) [m]) = 0 := by
        simp [List.countP_cons, hdev]
      rw [h1]
      simpa using ih a
  | deq q m hq ih =>
    intro a
    have := ih a
    unfold count_gl_adr at *
    rw [List.countP_cons] at this
    omega

/-- Witness for C2 at a concrete reachable queue. -/
theorem C2_queue_at_most_one_gl_set_witness :
    count_gl_adr (enqueue [] w2_cmd) (some 3) ≤ 1 :=
  C2_queue_at_most_one_gl_set (enqueue [] w2_cmd)
    (QueueReachable.enq [] w2_cmd QueueReachable.empty
      (by refine ⟨rfl, ?_, ?_⟩ <;> decide))
    (some 3)

/-- C3: the claim says that after any SET that passed validation the
stored speed `(protokoll_speedsteps * v) / v_max` stays within the
configured speed-step count.  Validation never compares `v` with
`v_max`, so `SET GL 5 0 2 1` (drivemode 0, `v = 2`, `v_max = 1`) passes
validation with `200 OK`, yet executing it stores speed 28 on a 14-step
locomotive -- violating the DCC codec's own
`assert!(speed <= speed_steps)` when the telegram is rendered. -/
theorem C3_speed_bound_violated :
    DdlGL.validate_cmd reg_example all_gl_example c3_set_cmd
      = some (true, [c3_set_cmd.new_ok "200"])
    ∧ (DdlGL.execute_set 1 all_gl_example c3_set_cmd).map
        (fun r => (glLookup r.1 5).map GLInit.speed) = some (some 28)
    ∧ ¬ DccProtokoll.speed_assert 28 14 := by
  refine ⟨by decide, by decide, ?_⟩
  unfold DccProtokoll.speed_assert
  decide

/-- C4: the claim says the programming helper rejects CVBIT bit number 8
and CV numbers 0 and 1025 with an error result before any telegram is
produced.  The bit-number part holds, but the CV range check is
`(para[0] >= 1) || (para[0] <= 1024)` -- a tautology (`||` instead of
`&&`) -- so CV 0 and CV 1025 pass validation and verify telegrams are
emitted for them, as evaluated here. -/
theorem C4_cv_range_check_tautology :
    DccProgThread.para_valid
      { adr := 3, prog_gleis := true, sm_type := "CV", para := [0],
        val := .Read, trigger := false } = true
    ∧ DccProgThread.para_valid
      { adr := 3, prog_gleis := true, sm_type := "CV", para := [1025],
        val := .Read, trigger := false } = true
    ∧ (DccProgThread.execute_step
        { adr := 3, prog_gleis := true, sm_type := "CV", para := [0],
          val := .Read, trigger := false } c4_env).2 ≠ []
    ∧ DccProgThread.execute_step
        { adr := 3, prog_gleis := true, sm_type := "CVBIT", para := [5, 8],
          val := .Read, trigger := false } c4_env = (.ResultErr, []) := by
  decide

/-- C5 counterexample: the address field `add_mm_adr` produces for
address 80 is not byte-for-byte identical to the idle telegram's address
field (four `O` symbols). -/
theorem C5_adr80_ne_idle_field :
    MMProtokoll.add_mm_adr 80 false ≠ MMProtokoll.idle_adr_field := by
  decide

/-- C5 amended: `add_mm_adr` encodes locomotive address 80 as wire
address 0 -- four 0-trit symbols `L L L L` (bytes `C0 00 C0 00` each) --
which differs from the MM idle telegram's address field of four open
trits `O O O O` (bytes `FF FC C0 00` each). -/
theorem C5_adr80_encodes_adr0 :
    MMProtokoll.add_mm_adr 80 false = MM_BIT_L ++ MM_BIT_L ++ MM_BIT_L ++ MM_BIT_L
    ∧ MMProtokoll.add_mm_adr 80 false = MMProtokoll.add_mm_adr 0 false
    ∧ MMProtokoll.add_mm_adr 80 false ≠ MMProtokoll.idle_adr_field := by
  decide

set_option maxRecDepth 8000 in
/-- C6: the claim says every SEARCH_NEW_DECODER telegram ends with a
tail of 11 sync patterns before the `0011` marker.  The source's loop
`for _ in [0..11]` iterates over a one-element array and emits only a
single sync, so the frame the code builds differs from the frame with
the eleven syncs the specification (and the code's own comment
"11 oder 11.5 Sync") describes. -/
theorem C6_search_tail_single_sync :
    MfxProtokoll.send_search_new_decoder 0 0 ≠ MfxProtokoll.search_frame_with 11 0 0 := by
  intro h
  exact absurd (congrArg (fun p => p.1.frame.length) h) (by decide)

/-- C7: in the DCC base telegram's speed byte, bit 4 equals function F0
exactly when at most 14 speed steps are configured; with more than 14
steps the speed byte does not depend on the function bitmap at all. -/
theorem C7_dcc_f0_in_speed_byte (dm : GLDriveMode) (sp ss f : Nat) (dmo : GLDriveMode) :
    (ss ≤ SPEED_STEP_4BIT →
      (DccProtokoll.speed_byte dm sp ss f dmo).testBit 4 = f.testBit 0)
    ∧ (SPEED_STEP_4BIT < ss → ∀ f' : Nat,
      DccProtokoll.speed_byte dm sp ss f dmo = DccProtokoll.speed_byte dm sp ss f' dmo) := by
  constructor
  · intro h
    have h29 : ¬ SPEED_STEP_5BIT < ss := by
      unfold SPEED_STEP_5BIT; unfold SPEED_STEP_4BIT at h; omega
    have h14 : ¬ SPEED_STEP_4BIT < ss := by omega
    unfold DccProtokoll.speed_byte
    simp only [if_neg h29, if_neg h14]
    simp [Nat.testBit_or, Nat.testBit_and, Nat.testBit_shiftLeft]
    have e15 : Nat.testBit 15 4 = false := by decide
    have e16 : Nat.testBit 16 4 = true := by decide
    have e96 : Nat.testBit 96 4 = false := by decide
    have e64 : Nat.testBit 64 4 = false := by decide
    split <;> simp [e15, e16, e96, e64]
  · intro h f'
    by_cases h29 : SPEED_STEP_5BIT < ss
    · unfold DccProtokoll.speed_byte
      simp only [if_pos h29]
    · unfold DccProtokoll.speed_byte
      simp only [if_neg h29, if_pos h]

/-- Witness for C7 at 14-step and 28-step configurations. -/
theorem C7_dcc_f0_in_speed_byte_witness :
    (DccProtokoll.speed_byte .Vorwaerts 7 14 1 .Vorwaerts).testBit 4 = Nat.testBit 1 0
    ∧ DccProtokoll.speed_byte .Vorwaerts 7 28 1 .Vorwaerts
        = DccProtokoll.speed_byte .Vorwaerts 7 28 0 .Vorwaerts :=
  ⟨(C7_dcc_f0_in_speed_byte .Vorwaerts 7 14 1 .Vorwaerts).1 (by decide),
   (C7_dcc_f0_in_speed_byte .Vorwaerts 7 28 1 .Vorwaerts).2 (by decide) 0⟩

/-- C8: a successful discovery (positive response with 32 matched bits
and a nonzero UID) increments the registration counter by exactly one
(`u16` arithmetic) and writes the new value to the counter file, with
the search state reset in the returned state; no other evaluation
outcome changes the counter or writes the file. -/
theorem C8_reg_counter_increment (st : SearchState) (rx : List Nat) :
    ((MfxProtokoll.eval_send_search_new_decoder st rx).2.1.isOk = true →
        (MfxProtokoll.eval_send_search_new_decoder st rx).1.reg_counter
            = (st.reg_counter + 1) % 2 ^ 16
        ∧ (MfxProtokoll.eval_send_search_new_decoder st rx).2.2
            = [(st.reg_counter + 1) % 2 ^ 16]
        ∧ (MfxProtokoll.eval_send_search_new_decoder st rx).1.search_new_dekoder_bits = 0
        ∧ (MfxProtokoll.eval_send_search_new_decoder st rx).1.search_new_dekoder_uid = 0)
    ∧ ((MfxProtokoll.eval_send_search_new_decoder st rx).2.1.isOk = false →
        (MfxProtokoll.eval_send_search_new_decoder st rx).1.reg_counter = st.reg_counter
        ∧ (MfxProtokoll.eval_send_search_new_decoder st rx).2.2 = []) := by
  unfold MfxProtokoll.eval_send_search_new_decoder
  constructor <;> intro hu <;>
    split_ifs at hu ⊢ <;>
      by_cases h4 : st.search_new_dekoder_uid
          &&& 2147483648 >>> (st.search_new_dekoder_bits - 1) = 0 <;>
        simp_all [ResultNeuAnmeldung.isOk]

/-- Witness for C8: the 33rd positive response on UID 5 advances the
counter from 7 to 8 and writes 8. -/
theorem C8_reg_counter_increment_witness :
    (MfxProtokoll.eval_send_search_new_decoder c8_state_example c8_rx_example).1.reg_counter = 8
    ∧ (MfxProtokoll.eval_send_search_new_decoder c8_state_example c8_rx_example).2.2 = [8] := by
  have h := (C8_reg_counter_increment c8_state_example c8_rx_example).1 (by decide)
  exact ⟨h.1.trans (by decide), h.2.1.trans (by decide)⟩

/-- C9 counterexample: parsing `GET 1 GL 3` and serialising it back does
not give the canonical line -- `to_string` appends a space after every
parameter, so the result carries a trailing space. -/
theorem C9_roundtrip_counterexample :
    (SRCPMessage.fromCmd 1 ["GET", "1", "GL", "3"]).toOption.map SRCPMessage.to_string
      ≠ some (canonical_line ["GET", "1", "GL", "3"]) := by
  decide

/-- C9 amended: for every well-formed command line, parsing with
`SRCPMessage::from` and serialising with `to_string` yields the line's
tokens -- with the bus token replaced by the canonical decimal print of
the parsed bus number -- joined by exactly one space and followed by
exactly one trailing space.  (For a line whose bus token is already
canonical this is the canonical form of the line plus one trailing
space; a bus token such as `007` comes back as `7`.) -/
theorem C9_roundtrip_trailing_space (sid : Nat) (t b d : String) (ps : List String)
    (m : SRCPMessage)
    (hparse : SRCPMessage.fromCmd sid (t :: b :: d :: ps) = .ok m) :
    m.to_string = canonical_line (t :: Nat.repr m.bus :: d :: ps) ++ " " := by
  simp only [SRCPMessage.fromCmd] at hparse
  cases ht : SRCPMessageType.fromStr t with
  | none => rw [ht] at hparse; simp at hparse
  | some ty =>
    rw [ht] at hparse
    cases hb : parse_usize b with
    | none => rw [hb] at hparse; simp at hparse
    | some bus =>
      rw [hb] at hparse
      cases hd : SRCPMessageDevice.fromStr d with
      | none => rw [hd] at hparse; simp at hparse
      | some dev =>
        rw [hd] at hparse
        simp only [Except.ok.injEq] at hparse
        subst hparse
        unfold SRCPMessage.to_string
        rw [canonical_cons_space t (Nat.repr bus :: d :: ps)]
        rw [List.map_cons, join_cons, List.map_cons, join_cons]
        simp only [SRCPMessage.mk.injEq, SRCPMessageID.str_kurz, SRCPMessageID.to_string]
        rw [SRCPMessageType.roundtrip_fromStr ht, SRCPMessageDevice.device_roundtrip_fromStr hd]
        simp [String.append_assoc]

/-- Witness for C9 at `GET 1 GL 3`. -/
theorem C9_roundtrip_trailing_space_witness :
    c9_msg_example.to_string = canonical_line ["GET", "1", "GL", "3"] ++ " " := by
  have h := C9_roundtrip_trailing_space 1 "GET" "1" "GL" ["3"] c9_msg_example rfl
  simpa using h

/-- C10: executing a queued GL or GA SET whose address was TERMed in the
meantime is a complete no-op: the stored records are unchanged, no
telegram is shipped and no message is emitted (the client already got
its `200 OK` at validation time, see the SET arm of `validate_cmd`). -/
theorem C10_queued_set_after_term_noop (bus : Nat) (all_gl : GLMap) (all_ga : GAMap)
    (delay : List GADelay) (m_gl m_ga : SRCPMessage) (now : Nat)
    (p_gl p_ga : String) (a_gl a_ga : Nat)
    (hp_gl : m_gl.parameter.get? 0 = some p_gl) (ha_gl : parse_u32 p_gl = some a_gl)
    (hterm_gl : glLookup all_gl a_gl = none)
    (hp_ga : m_ga.parameter.get? 0 = some p_ga) (ha_ga : parse_u32 p_ga = some a_ga)
    (hterm_ga : gaLookup all_ga a_ga = none) :
    DdlGL.execute_set bus all_gl m_gl = some (all_gl, [])
    ∧ DdlGA.execute_set bus all_ga delay m_ga now = some (all_ga, delay, []) := by
  constructor
  · unfold DdlGL.execute_set
    rw [hp_gl]
    simp only [ha_gl, hterm_gl]
    simp
  · unfold DdlGA.execute_set
    rw [hp_ga]
    simp only [ha_ga, hterm_ga]
    simp

/-- Witness for C10: queued SETs for the TERMed address 7 on empty
stores do nothing. -/
theorem C10_queued_set_after_term_noop_witness :
    DdlGL.execute_set 1 [] w10_gl_cmd = some ([], [])
    ∧ DdlGA.execute_set 1 [] [] w10_ga_cmd 0 = some ([], [], []) :=
  C10_queued_set_after_term_noop 1 [] [] [] w10_gl_cmd w10_ga_cmd 0 "7" "7" 7 7
    (by decide) (by decide) (by decide) (by decide) (by decide) (by decide)

end SrcpdRust
